import Mathlib

/-!
Shallow embedding of the headlamp frontend excerpt:

* `src/frontend/src/components/common/Table/Table.tsx` — the generic data
  table: the `usePageURLState` pagination/URL synchronization hook, the
  `enablePagination` flag, the derived CSS grid template, the
  error/loading/empty/grid render precedence and the `onPaginationChange`
  handler.
* `src/unnamed/part_000` — the memory and CPU circular-chart adapters and
  their `getLegend` functions.
* `src/frontend/src/components/App/AppLogo.tsx` — the themed logo resolver.
* `src/plugins/examples/dynamic-clusters/src/index.tsx` — the example
  plugin's kubeconfig validation and submission handler.

Numbers that the TypeScript stores as JS numbers are embedded as `Int`
(page indices), `Nat` (lengths, options) or `Rat` (metric readings); all
integral inputs the claims exercise are exact in every one of these types.
-/

namespace Headlamp

/-! ### URL query parameters (Table.tsx, pagination reflection)

The table mirrors its pagination state into URL query parameters.  A URL
query is embedded as an association list of key/value strings. -/

/-- Look up a query parameter (the first binding wins). -/
def getParam (ps : List (String × String)) (k : String) : Option String :=
  (ps.find? (fun kv => kv.fst == k)).map (fun kv => kv.snd)

/-- Set a query parameter, replacing an existing binding or appending a new one. -/
def setParam (ps : List (String × String)) (k v : String) : List (String × String) :=
  match ps with
  | [] => [(k, v)]
  | kv :: rest => if kv.fst == k then (k, v) :: rest else kv :: setParam rest k v

/-- Decimal value of a digit character, `none` on non-digits. -/
def digitVal (c : Char) : Option Nat :=
  if c.isDigit then some (c.toNat - Char.toNat (Char.ofNat 48)) else none

/-- Left-to-right decimal accumulation over a character list; `none` as soon
as a non-digit appears. -/
def parseNatAux : List Char → Nat → Option Nat
  | [], acc => some acc
  | c :: rest, acc =>
    match digitVal c with
    | none => none
    | some d => parseNatAux rest (acc * 10 + d)

/-- Parse a decimal integer string (optional leading minus sign). -/
def parseDecimal (s : String) : Option Int :=
  match s.data with
  | [] => none
  | c :: rest =>
    if c = Char.ofNat 45 then
      match rest with
      | [] => none
      | _ => (parseNatAux rest 0).map (fun n => -(n : Int))
    else (parseNatAux (c :: rest) 0).map (fun n => (n : Int))

/-- The decimal digit character for `n % 10`. -/
def digitChar (n : Nat) : Char :=
  Char.ofNat (48 + n % 10)

/-- Decimal digits of `n` (most significant first), with enough fuel. -/
def natToDecChars : Nat → Nat → List Char
  | 0, _ => []
  | fuel + 1, n => if n = 0 then [] else natToDecChars fuel (n / 10) ++ [digitChar (n % 10)]

/-- Render an integer as a decimal string. -/
def intToDecString (v : Int) : String :=
  match v with
  | Int.ofNat 0 => "0"
  | Int.ofNat n => String.mk (natToDecChars n n)
  | Int.negSucc m => String.mk (Char.ofNat 45 :: natToDecChars (m + 1) (m + 1))

/-- Modelled from the spec: the repository hook `useURLState`
(`src/frontend/src/lib/util.ts`, not part of the excerpt) reflects a numeric
state in the query parameter named `pre ++ key` (spec section 6: page is
persisted as the parameter `p` with an optional namespacing string in front,
one-based).  The read half parses the parameter as a decimal number, falling
back to the configured default when the parameter is absent or unparsable. -/
def readURLState (ps : List (String × String)) (pre key : String) (dflt : Int) : Int :=
  match getParam ps (pre ++ key) with
  | none => dflt
  | some s => (parseDecimal s).getD dflt

/-- Modelled from the spec: the write half of `useURLState` stores the number
back into the query parameter as its decimal string. -/
def writeURLState (ps : List (String × String)) (pre key : String) (v : Int)
    : List (String × String) :=
  setParam ps (pre ++ key) (intToDecString v)

/-! ### `usePageURLState` (Table.tsx lines 103–126)

The hook pairs the URL page parameter (one-based) with a React state
`zeroIndexPage` (zero-based) and keeps them consistent through two effects:
one watching the parsed URL value `page`, one watching `zeroIndexPage`. -/

/-- State of `usePageURLState` at the string level: the URL query plus the
zero-based page index held in React state. -/
structure PageURLState where
  params : List (String × String)
  zeroIndexPage : Int
deriving DecidableEq

/-- The effect watching the URL page value (`useEffect(..., [page])`): when
`page - 1` differs from `zeroIndexPage` it overwrites `zeroIndexPage` with
`page - 1`, otherwise it leaves the state untouched. -/
def reconcileEffect (pre : String) (dflt : Int) (s : PageURLState) : PageURLState :=
  let page := readURLState s.params pre "p" dflt
  if page - 1 ≠ s.zeroIndexPage then { s with zeroIndexPage := page - 1 } else s

/-- The effect watching `zeroIndexPage` (`useEffect(..., [zeroIndexPage])`):
it writes `zeroIndexPage + 1` back into the URL page parameter. -/
def pushPageEffect (pre : String) (s : PageURLState) : PageURLState :=
  { s with params := writeURLState s.params pre "p" (s.zeroIndexPage + 1) }

/-- `usePageURLState` with the URL abstracted to its parsed numeric page
value: `urlPage` is the one-based number the URL parameter holds, and
`zeroIndexPage` the zero-based React state. -/
structure PageSync where
  urlPage : Int
  zeroIndexPage : Int
deriving DecidableEq

/-- Numeric-level reconciliation effect (watches `urlPage`). -/
def urlEffect (s : PageSync) : PageSync :=
  if s.urlPage - 1 ≠ s.zeroIndexPage then { s with zeroIndexPage := s.urlPage - 1 } else s

/-- Numeric-level push effect (watches `zeroIndexPage`). -/
def zeroIndexEffect (s : PageSync) : PageSync :=
  { s with urlPage := s.zeroIndexPage + 1 }

/-- An external write of the URL page parameter followed by the effects it
triggers: the reconciliation effect fires on the changed `urlPage`, then the
push effect fires on the (possibly) changed `zeroIndexPage`.  (When the
reconciliation left `zeroIndexPage` unchanged the push effect does not fire
in React, but applying it is then the identity, so the composition is a
faithful model of either schedule.) -/
def setURLPageThenSettle (s : PageSync) (p : Int) : PageSync :=
  zeroIndexEffect (urlEffect { s with urlPage := p })

/-- A user pagination action writing the internal zero-based index followed
by the effects it triggers: the push effect fires on the changed
`zeroIndexPage`, then the reconciliation effect fires on the changed
`urlPage`. -/
def setZeroIndexThenSettle (s : PageSync) (z : Int) : PageSync :=
  urlEffect (zeroIndexEffect { s with zeroIndexPage := z })

/-! ### Pagination visibility (Table.tsx line 236) -/

/-- The `enablePagination` table option:
`tableData.length > rowsPerPageOptions[0]`.  The comparison is against the
FIRST entry of the options list; on an empty list `rowsPerPageOptions[0]` is
`undefined` in JS and the comparison is false. -/
def enablePagination (tableDataLen : Nat) (rowsPerPageOptions : List Nat) : Bool :=
  match rowsPerPageOptions with
  | [] => false
  | o :: _ => tableDataLen > o

/-- The minimum of the configured page-size options (refinement target,
written from the spec's words "min(configured page-size options)"). -/
def minOfOptions : List Nat → Option Nat
  | [] => none
  | x :: xs =>
    match minOfOptions xs with
    | none => some x
    | some m => some (min x m)

/-- The pagination-visibility rule exactly as the spec words it: controls
render iff the dataset length strictly exceeds the minimum of the configured
page-size options (refinement target, written from the spec). -/
def specPaginationVisible (len : Nat) (opts : List Nat) : Bool :=
  match minOfOptions opts with
  | none => false
  | some m => len > m

/-! ### Grid template columns (Table.tsx lines 194–220) -/

/-- A column width hint (`gridTemplate?: string | number`). -/
inductive GridHint where
  | num (n : Nat)
  | str (s : String)
deriving DecidableEq

/-- The slice of a column definition that the grid template derivation reads:
the (possibly absent) column id and the optional width hint.  The derivation
runs over `tableProps.columns`, the raw columns before ids are defaulted. -/
structure ColumnDef where
  id : Option String
  gridTemplate : Option GridHint
deriving DecidableEq

/-- Mapping of one width hint to a grid track: a number `n` becomes `"{n}fr"`,
a string is used verbatim, an absent hint defaults to `"1fr"`. -/
def hintTrack : Option GridHint → String
  | some (GridHint.num n) => toString n ++ "fr"
  | some (GridHint.str s) => s
  | none => "1fr"

/-- `state?.columnVisibility?.[it.id!] === false`: a column is hidden exactly
when its id is present and mapped to `false` in the visibility record. -/
def isHiddenColumn (visibility : String → Option Bool) (c : ColumnDef) : Bool :=
  match c.id with
  | some i => visibility i == some false
  | none => false

/-- The derived CSS grid template (Table.tsx lines 194–220): visible columns'
tracks joined with spaces, `" 0.05fr"` appended when row actions are enabled,
`"0.05fr "` prepended when row selection is enabled. -/
def gridTemplateColumns (cols : List ColumnDef) (visibility : String → Option Bool)
    (enableRowActions enableRowSelection : Bool) : String :=
  let joined := String.intercalate " "
    ((cols.filter (fun c => !isHiddenColumn visibility c)).map (fun c => hintTrack c.gridTemplate))
  let withActions := if enableRowActions then joined ++ " 0.05fr" else joined
  if enableRowSelection then "0.05fr " ++ withActions else withActions

/-! ### Render-state precedence (Table.tsx lines 322–336) -/

/-- The subset of React nodes the embedding distinguishes: strings (whose JS
truthiness depends on emptiness) and elements (always truthy). -/
inductive ReactNode where
  | str (s : String)
  | element
deriving DecidableEq

/-- JS truthiness of an optional React node: `undefined` and `""` are falsy
(`!!errorMessage` in the source). -/
def truthyNode : Option ReactNode → Bool
  | none => false
  | some (ReactNode.str s) => s != ""
  | some ReactNode.element => true

/-- What the table renders. -/
inductive RenderState where
  | errorView
  | loadingView
  | emptyView
  | grid
deriving DecidableEq

/-- `tableProps.data?.length`, with absent data reading as length 0. -/
def dataLength {α : Type} : Option (List α) → Nat
  | none => 0
  | some l => l.length

/-- The early-return chain of the `Table` component (lines 322–336):
error message (truthy) first, then the loading flag, then the
`!data?.length && !loading` empty state, else the populated grid. -/
def renderState {α : Type} (errorMessage : Option ReactNode) (loading : Bool)
    (data : Option (List α)) : RenderState :=
  if truthyNode errorMessage then RenderState.errorView
  else if loading then RenderState.loadingView
  else if dataLength data == 0 && !loading then RenderState.emptyView
  else RenderState.grid

/-! ### `onPaginationChange` (Table.tsx lines 242–247) -/

/-- The pagination record the grid engine's updater works on. -/
structure MRTPagination where
  pageIndex : Int
  pageSize : Int
deriving DecidableEq

/-- The page/pageSize state the handler reads and writes (the `page` state
returned by `usePageURLState` and the `pageSize` URL state). -/
structure TablePageState where
  page : Int
  pageSize : Int
deriving DecidableEq

/-- The `onPaginationChange` handler: with absent or empty `data` it returns
before calling either setter; otherwise it runs the engine's updater on
`{ pageIndex: page - 1, pageSize }` and stores `pageIndex + 1` and the new
page size. -/
def onPaginationChange {α : Type} (data : Option (List α))
    (updater : MRTPagination → MRTPagination) (s : TablePageState) : TablePageState :=
  match data with
  | none => s
  | some l =>
    if l.length == 0 then s
    else
      let pagination := updater { pageIndex := s.page - 1, pageSize := s.pageSize }
      { page := pagination.pageIndex + 1, pageSize := pagination.pageSize }

/-! ### Circular chart legends (src/unnamed/part_000)

`formatMetricValueUnit` and the translator `t` live outside the excerpt
(`lib/units`, i18n); the legend builders are parameterized over them: `fmt`
takes the value, the explicit unit string and the unit-family selector, in
the source's argument order. -/

/-- `MemoryCircularChart.getLegend` (part_000 lines 39–51). -/
def memoryGetLegend (fmt : Rat → String → String → String) (noMetrics : Bool)
    (used available : Rat) : String :=
  if available = 0 ∨ available = -1 then ""
  else
    let availableLabel := fmt available "" "binary"
    if noMetrics then availableLabel
    else
      let usedLabel := fmt used "" "binary"
      usedLabel ++ " / " ++ availableLabel

/-- `CpuCircularChart.getLegend` (part_000 lines 76–88): the available label
always carries the translated "cores" suffix. -/
def cpuGetLegend (fmt : Rat → String → String → String) (t : String → String)
    (noMetrics : Bool) (used available : Rat) : String :=
  if available = 0 ∨ available = -1 then ""
  else
    let availableLabel := fmt available "" "" ++ " " ++ t "cores"
    if noMetrics then availableLabel
    else
      let usedLabel := fmt used "" "cpu"
      usedLabel ++ " / " ++ availableLabel

/-! ### Themed logo resolver (AppLogo.tsx) -/

/-- The four built-in logo assets. -/
inductive LogoAsset where
  | logoWithTextLight
  | logoWithTextDark
  | logoLight
  | logoDark
deriving DecidableEq

/-- `OriginalAppLogo` (AppLogo.tsx lines 47–60): `large` selects the
with-text assets, and a `dark` theme selects the light-colored asset (and
vice versa). -/
def originalAppLogo (logoType themeName : Option String) : LogoAsset :=
  if logoType == some "large" then
    if themeName == some "dark" then LogoAsset.logoWithTextLight
    else LogoAsset.logoWithTextDark
  else
    if themeName == some "dark" then LogoAsset.logoLight
    else LogoAsset.logoDark

/-- A plugin-registered logo is either a ready React element or a component
reference (`isValidElement` distinguishes them). -/
inductive PluginLogo where
  | element
  | component
deriving DecidableEq

/-- The store and accessor values `AppLogo` reads: the plugins-loaded flag,
the registered logo, `getThemeName()` and `useNavBarMode()`. -/
structure AppLogoEnv where
  pluginsLoaded : Bool
  pluginLogo : Option PluginLogo
  globalThemeName : String
  navBarMode : String
deriving DecidableEq

/-- What `AppLogo` renders. -/
inductive AppLogoRender where
  | empty
  | pluginElement
  | pluginComponent (logoType themeName : String)
  | builtin (asset : LogoAsset)
deriving DecidableEq

/-- `AppLogo` (AppLogo.tsx lines 62–91): props default to `large` and the
global theme name; before plugins are loaded only the empty placeholder
renders; a registered element is used as-is; a registered component receives
the (defaulted) `logoType` and `themeName`; with no plugin logo the built-in
asset is chosen from `logoType` and the nav-bar `mode`. -/
def appLogo (logoTypeProp themeNameProp : Option String) (env : AppLogoEnv) : AppLogoRender :=
  let logoType := logoTypeProp.getD "large"
  let themeName := themeNameProp.getD env.globalThemeName
  if !env.pluginsLoaded then AppLogoRender.empty
  else
    match env.pluginLogo with
    | some PluginLogo.element => AppLogoRender.pluginElement
    | some PluginLogo.component => AppLogoRender.pluginComponent logoType themeName
    | none => AppLogoRender.builtin (originalAppLogo (some logoType) (some env.navBarMode))

/-! ### Dynamic-cluster registration (dynamic-clusters index.tsx) -/

/-- The YAML values `yaml.load` can return that matter to the validation:
null, scalars, mappings and sequences. -/
inductive YamlValue where
  | null
  | str (s : String)
  | num (n : Int)
  | bool (b : Bool)
  | obj (fields : List (String × YamlValue))
  | arr (elems : List YamlValue)

/-- JS property access `v.k` on a parsed YAML value: a field of a mapping, or
`undefined` (`none`) on everything else. -/
def getField (v : YamlValue) (k : String) : Option YamlValue :=
  match v with
  | YamlValue.obj fields => (fields.find? (fun f => f.fst == k)).map (fun f => f.snd)
  | _ => none

/-- JS truthiness of a parsed YAML value (`kubeconfigObject && ...`). -/
def truthyYaml : YamlValue → Bool
  | YamlValue.null => false
  | YamlValue.str s => s != ""
  | YamlValue.num n => n != 0
  | YamlValue.bool b => b
  | YamlValue.obj _ => true
  | YamlValue.arr _ => true

/-- Strict equality of a JS property against a string literal
(`v.k === 'lit'`): true only when the property is that exact string. -/
def isStr (v : Option YamlValue) (s : String) : Bool :=
  match v with
  | some (YamlValue.str s2) => s2 == s
  | _ => false

/-- `isValidKubeconfig` (index.tsx lines 58–79).  `decodeParse` stands for
`atob` followed by `yaml.load` (browser builtin and third-party library);
`Except.error m` models a thrown exception with message `m`.  Returns the
error message, or `none` when the kubeconfig is accepted. -/
def isValidKubeconfig (decodeParse : String → Except String YamlValue)
    (base64Kubeconfig : String) : Option String :=
  match decodeParse base64Kubeconfig with
  | Except.error m => some ("Error decoding/parsing kubeconfig: " ++ m)
  | Except.ok v =>
    if truthyYaml v && isStr (getField v "apiVersion") "v1" && isStr (getField v "kind") "Config"
    then none
    else some "Invalid kubeconfig format: Missing required fields"

/-- Outcome of a submission: the error shown to the user and whether
`Headlamp.setCluster` was invoked. -/
structure SubmitOutcome where
  error : Option String
  setClusterCalled : Bool
deriving DecidableEq

/-- `handleSubmit` in dynamic-cluster mode (index.tsx lines 52–96), up to the
point where `Headlamp.setCluster` is or is not invoked: a validation error is
stored and submission aborts; otherwise the registration call is made. -/
def handleSubmitDynamic (decodeParse : String → Except String YamlValue)
    (kubeconfig : String) : SubmitOutcome :=
  match isValidKubeconfig decodeParse kubeconfig with
  | some e => { error := some e, setClusterCalled := false }
  | none => { error := none, setClusterCalled := true }

/-! ## Helper lemmas -/

/-- After an external URL write, the paired effects settle to
`(p, p - 1)` in a single pass. -/
theorem setURLPageThenSettle_eq (s : PageSync) (p : Int) :
    setURLPageThenSettle s p = { urlPage := p, zeroIndexPage := p - 1 } := by
  rcases s with ⟨u, z⟩
  by_cases h : p - 1 = z
  · simp [setURLPageThenSettle, urlEffect, zeroIndexEffect, h, PageSync.mk.injEq]
    omega
  · simp [setURLPageThenSettle, urlEffect, zeroIndexEffect, h, PageSync.mk.injEq]

/-- After a user write of the internal index, the paired effects settle to
`(z + 1, z)` in a single pass. -/
theorem setZeroIndexThenSettle_eq (s : PageSync) (z : Int) :
    setZeroIndexThenSettle s z = { urlPage := z + 1, zeroIndexPage := z } := by
  simp only [setZeroIndexThenSettle, urlEffect, zeroIndexEffect]
  have h : z + 1 - 1 = z := by omega
  simp [h]

/-- Any state satisfying `zeroIndexPage = urlPage - 1` is a fixpoint of both
effects. -/
theorem effects_fix_of_invariant (s : PageSync) (h : s.zeroIndexPage = s.urlPage - 1) :
    urlEffect s = s ∧ zeroIndexEffect s = s := by
  have h2 : s.zeroIndexPage + 1 = s.urlPage := by omega
  constructor
  · simp [urlEffect, h]
  · simp [zeroIndexEffect, h2]

/-- A lower bound for every member of a list bounds `minOfOptions` below. -/
theorem minOfOptions_le_bound (l : List Nat) (o m : Nat)
    (hb : ∀ x ∈ l, o ≤ x) (hm : minOfOptions l = some m) : o ≤ m := by
  induction l generalizing m with
  | nil => simp [minOfOptions] at hm
  | cons y ys ih =>
    simp only [minOfOptions] at hm
    cases hys : minOfOptions ys with
    | none =>
      rw [hys] at hm
      simp only [Option.some.injEq] at hm
      subst hm
      exact hb y (by simp)
    | some m2 =>
      rw [hys] at hm
      simp only [Option.some.injEq] at hm
      subst hm
      have h1 : o ≤ y := hb y (by simp)
      have h2 : o ≤ m2 := ih m2 (fun x hx => hb x (List.mem_cons_of_mem y hx)) hys
      omega

/-- When the head of the options list is a lower bound of the tail, it is the
minimum. -/
theorem minOfOptions_cons_of_head_min (o : Nat) (rest : List Nat)
    (hb : ∀ x ∈ rest, o ≤ x) : minOfOptions (o :: rest) = some o := by
  simp only [minOfOptions]
  cases hr : minOfOptions rest with
  | none => rfl
  | some m =>
    have := minOfOptions_le_bound rest o m hb hr
    simp [Nat.min_eq_left this]

/-! ## Claims -/

/-- C1: with key namespacing string "x", setting the URL page parameter to
"3" reconciles the internal zero-based index to 2, and subsequently setting
the internal index to 5 writes "6" back to the URL parameter; in general,
after either side changes, the paired effects settle in one pass to the state
with internal = URL − 1, which both effects fix — no oscillation. -/
theorem c1_url_page_sync :
    (reconcileEffect "x" 2 { params := [("xp", "3")], zeroIndexPage := 0 }).zeroIndexPage = 2
    ∧ getParam (pushPageEffect "x"
        { params := [("xp", "3")], zeroIndexPage := 5 }).params "xp" = some "6"
    ∧ (∀ s p, setURLPageThenSettle s p = { urlPage := p, zeroIndexPage := p - 1 })
    ∧ (∀ s z, setZeroIndexThenSettle s z = { urlPage := z + 1, zeroIndexPage := z })
    ∧ (∀ s p, urlEffect (setURLPageThenSettle s p) = setURLPageThenSettle s p
        ∧ zeroIndexEffect (setURLPageThenSettle s p) = setURLPageThenSettle s p)
    ∧ (∀ s z, urlEffect (setZeroIndexThenSettle s z) = setZeroIndexThenSettle s z
        ∧ zeroIndexEffect (setZeroIndexThenSettle s z) = setZeroIndexThenSettle s z) := by
  refine ⟨by decide, by decide, setURLPageThenSettle_eq, setZeroIndexThenSettle_eq, ?_, ?_⟩
  · intro s p
    refine effects_fix_of_invariant _ ?_
    simp [setURLPageThenSettle_eq]
  · intro s z
    refine effects_fix_of_invariant _ ?_
    simp [setZeroIndexThenSettle_eq]

/-- C2 counterexample: with configured page-size options `[50, 15]` (not
sorted ascending) and dataset length 20, the spec's rule — compare against
the minimum, 15 — says the pager renders, but the code compares against the
first option, 50, and disables pagination. -/
theorem c2_pagination_min_counterexample :
    specPaginationVisible 20 [50, 15] = true ∧ enablePagination 20 [50, 15] = false := by
  decide

/-- C2 (amended): pagination controls render iff the dataset length strictly
exceeds the FIRST configured page-size option; whenever the first option is a
lower bound of the rest (options sorted ascending, as the defaults are), this
coincides with the spec's minimum rule. -/
theorem c2_pagination_first_option (len o : Nat) (rest : List Nat) :
    (enablePagination len (o :: rest) = true ↔ o < len)
    ∧ ((∀ x ∈ rest, o ≤ x) →
        enablePagination len (o :: rest) = specPaginationVisible len (o :: rest)) := by
  constructor
  · simp [enablePagination]
  · intro hb
    simp [enablePagination, specPaginationVisible, minOfOptions_cons_of_head_min o rest hb]

/-- Witness for C2 (amended) at the default ascending options `[15, 25, 50]`
and dataset length 20. -/
theorem c2_pagination_first_option_witness :
    enablePagination 20 [15, 25, 50] = specPaginationVisible 20 [15, 25, 50] :=
  (c2_pagination_first_option 20 15 [25, 50]).2 (by decide)

/-- C3: width hints `[1, "2fr", "min-content"]` with row selection enabled
derive the grid template `"0.05fr 1fr 2fr min-content"`; in general a numeric
hint `n` maps to `"{n}fr"`, a string hint is used verbatim, a missing hint
defaults to `"1fr"`, row selection prepends a `0.05fr` track and row actions
append one. -/
theorem c3_grid_template :
    gridTemplateColumns
      [ { id := none, gridTemplate := some (GridHint.num 1) },
        { id := none, gridTemplate := some (GridHint.str "2fr") },
        { id := none, gridTemplate := some (GridHint.str "min-content") } ]
      (fun _ => none) false true = "0.05fr 1fr 2fr min-content"
    ∧ (∀ n : Nat, hintTrack (some (GridHint.num n)) = toString n ++ "fr")
    ∧ (∀ s : String, hintTrack (some (GridHint.str s)) = s)
    ∧ hintTrack none = "1fr"
    ∧ (∀ cols vis, gridTemplateColumns cols vis false true
        = "0.05fr " ++ gridTemplateColumns cols vis false false)
    ∧ (∀ cols vis, gridTemplateColumns cols vis true false
        = gridTemplateColumns cols vis false false ++ " 0.05fr") := by
  refine ⟨by decide, fun n => rfl, fun s => rfl, rfl, fun cols vis => ?_, fun cols vis => ?_⟩
  · simp [gridTemplateColumns]
  · simp [gridTemplateColumns]

/-- C4 counterexample: an error message that is provided but falsy — the
empty string — is NOT shown: with no data and the loading flag clear, the
empty state renders instead of the error view. -/
theorem c4_precedence_counterexample :
    renderState (α := Unit) (some (ReactNode.str "")) false none = RenderState.emptyView
    ∧ renderState (α := Unit) (some (ReactNode.str "")) false none ≠ RenderState.errorView := by
  decide

/-- C4 (amended): with a TRUTHY error message (a non-empty string or an
element) the error view wins over everything; otherwise loading wins; with
loading clear an absent/empty dataset shows the empty state; otherwise the
populated grid renders. -/
theorem c4_render_precedence {α : Type} (e : Option ReactNode) (l : Bool)
    (d : Option (List α)) :
    (truthyNode e = true → renderState e l d = RenderState.errorView)
    ∧ (truthyNode e = false → l = true → renderState e l d = RenderState.loadingView)
    ∧ (truthyNode e = false → l = false → dataLength d = 0 →
        renderState e l d = RenderState.emptyView)
    ∧ (truthyNode e = false → l = false → dataLength d ≠ 0 →
        renderState e l d = RenderState.grid) := by
  refine ⟨fun he => ?_, fun he hl => ?_, fun he hl hd => ?_, fun he hl hd => ?_⟩
  · simp [renderState, he]
  · simp [renderState, he, hl]
  · simp [renderState, he, hl, hd]
  · simp [renderState, he, hl, hd]

/-- Witness for C4 (amended): a truthy (element) error message is shown. -/
theorem c4_render_precedence_witness :
    renderState (α := Unit) (some ReactNode.element) false none = RenderState.errorView :=
  (c4_render_precedence (some ReactNode.element) false none).1 rfl

/-- C5: both legends are the empty string whenever the available capacity is
the sentinel 0 or −1, for every used value, formatter, translator and
noMetrics flag. -/
theorem c5_sentinel_empty_legend (fmt : Rat → String → String → String)
    (t : String → String) (nm : Bool) (used : Rat) :
    memoryGetLegend fmt nm used 0 = ""
    ∧ memoryGetLegend fmt nm used (-1) = ""
    ∧ cpuGetLegend fmt t nm used 0 = ""
    ∧ cpuGetLegend fmt t nm used (-1) = "" := by
  refine ⟨?_, ?_, ?_, ?_⟩ <;> simp [memoryGetLegend, cpuGetLegend]

/-- C6: with a non-sentinel available value, each legend is
"used-label / available-label" when metrics are present and the available
label alone when `noMetrics` is set; the CPU available label always carries
the translated "cores" suffix, in particular when metrics are absent. -/
theorem c6_legend_structure (fmt : Rat → String → String → String)
    (t : String → String) (used available : Rat)
    (h0 : available ≠ 0) (h1 : available ≠ -1) :
    memoryGetLegend fmt true used available = fmt available "" "binary"
    ∧ memoryGetLegend fmt false used available
        = fmt used "" "binary" ++ " / " ++ fmt available "" "binary"
    ∧ cpuGetLegend fmt t true used available = fmt available "" "" ++ " " ++ t "cores"
    ∧ cpuGetLegend fmt t false used available
        = fmt used "" "cpu" ++ " / " ++ (fmt available "" "" ++ " " ++ t "cores") := by
  refine ⟨?_, ?_, ?_, ?_⟩ <;> simp [memoryGetLegend, cpuGetLegend, h0, h1]

/-- Witness for C6 at available = 4. -/
theorem c6_legend_structure_witness :
    memoryGetLegend (fun _ _ _ => "A") true 1 4 = "A" :=
  (c6_legend_structure (fun _ _ _ => "A") (fun s => s) 1 4 (by norm_num) (by norm_num)).1

/-- C7: whenever the submitted base64 string decodes and parses to a YAML
value whose `apiVersion` is not the string "v1" or whose `kind` is not the
string "Config", dynamic submission stores exactly
"Invalid kubeconfig format: Missing required fields" and never calls
`Headlamp.setCluster`. -/
theorem c7_invalid_kubeconfig (decodeParse : String → Except String YamlValue)
    (b64 : String) (v : YamlValue)
    (hok : decodeParse b64 = Except.ok v)
    (hbad : isStr (getField v "apiVersion") "v1" = false
            ∨ isStr (getField v "kind") "Config" = false) :
    handleSubmitDynamic decodeParse b64
      = { error := some "Invalid kubeconfig format: Missing required fields",
          setClusterCalled := false } := by
  unfold handleSubmitDynamic isValidKubeconfig
  rw [hok]
  rcases hbad with h | h <;> simp [h]

/-- Witness for C7: a parsed empty mapping (no `apiVersion` field) is
rejected with the exact message and no registration call. -/
theorem c7_invalid_kubeconfig_witness :
    handleSubmitDynamic (fun _ => Except.ok (YamlValue.obj [])) "Zm9v"
      = { error := some "Invalid kubeconfig format: Missing required fields",
          setClusterCalled := false } :=
  c7_invalid_kubeconfig (fun _ => Except.ok (YamlValue.obj [])) "Zm9v" (YamlValue.obj [])
    rfl (Or.inl rfl)

/-- C8: whenever the plugins-loaded flag is false, the logo resolver renders
only the empty placeholder — for every prop combination and every registered
plugin logo. -/
theorem c8_plugins_not_loaded_empty (lt tn : Option String)
    (logo : Option PluginLogo) (g nb : String) :
    appLogo lt tn
      { pluginsLoaded := false, pluginLogo := logo, globalThemeName := g, navBarMode := nb }
      = AppLogoRender.empty := by
  simp [appLogo]

/-- C9 counterexample: with no plugin logo registered, an explicitly supplied
themeName "dark" is ignored by the built-in branch, which takes its theme
from the navigation-bar mode ("light") instead — the asset selected for the
supplied theme is not the one rendered. -/
theorem c9_theme_override_counterexample :
    appLogo (some "large") (some "dark")
      { pluginsLoaded := true, pluginLogo := none,
        globalThemeName := "light", navBarMode := "light" }
      = AppLogoRender.builtin LogoAsset.logoWithTextDark
    ∧ originalAppLogo (some "large") (some "dark") = LogoAsset.logoWithTextLight
    ∧ LogoAsset.logoWithTextDark ≠ LogoAsset.logoWithTextLight := by
  decide

/-- C9 (amended): an explicitly supplied logoType is honored everywhere;
an explicitly supplied themeName is honored for a plugin component logo, and
when omitted the global theme accessor supplies it; the built-in branch
instead always derives its theme from the navigation-bar-mode accessor; a
plugin-supplied element ignores the props. -/
theorem c9_prop_override (lt tn : String) (env : AppLogoEnv)
    (hl : env.pluginsLoaded = true) :
    (env.pluginLogo = some PluginLogo.component →
      appLogo (some lt) (some tn) env = AppLogoRender.pluginComponent lt tn)
    ∧ (env.pluginLogo = some PluginLogo.component →
      appLogo (some lt) none env = AppLogoRender.pluginComponent lt env.globalThemeName)
    ∧ (env.pluginLogo = none →
      appLogo (some lt) (some tn) env
        = AppLogoRender.builtin (originalAppLogo (some lt) (some env.navBarMode)))
    ∧ (env.pluginLogo = some PluginLogo.element →
      appLogo (some lt) (some tn) env = AppLogoRender.pluginElement) := by
  refine ⟨fun h => ?_, fun h => ?_, fun h => ?_, fun h => ?_⟩ <;> simp [appLogo, hl, h]

/-- Witness for C9 (amended): an explicit logoType/themeName pair reaches a
plugin component logo unchanged. -/
theorem c9_prop_override_witness :
    appLogo (some "small") (some "dark")
      { pluginsLoaded := true, pluginLogo := some PluginLogo.component,
        globalThemeName := "light", navBarMode := "light" }
      = AppLogoRender.pluginComponent "small" "dark" :=
  (c9_prop_override "small" "dark"
    { pluginsLoaded := true, pluginLogo := some PluginLogo.component,
      globalThemeName := "light", navBarMode := "light" } rfl).1 rfl

/-- C10: with absent or empty data, every pagination-change event from the
grid engine is a no-op on the page/pageSize state — the handler returns
before invoking either setter, so the URL-reflected parameters stay put as
well. -/
theorem c10_empty_data_pagination_noop (α : Type)
    (updater : MRTPagination → MRTPagination) (s : TablePageState) :
    onPaginationChange (α := α) none updater s = s
    ∧ onPaginationChange (some ([] : List α)) updater s = s := by
  exact ⟨rfl, rfl⟩

end Headlamp
